import Mathlib

/-!
Verification development for the YOLO-Density-Notifying pipeline.

This file gives a shallow embedding of the concurrent acquisition /
processing pipeline of the repository:

* `src/scripts/LiveApplication.py` — `ApplicationHandler` with its
  `camera_capture` producer loop, `process_frames` consumer loop and the
  constructor check for the video source;
* `src/densEstAI/core/stream/video_streaming.py` — `ThreadedVideoStreamer`
  with its worker loop (inside `start_stream`), the polling loop of
  `start_stream`, `process_graph_queue` and `stop_stream`.

Each loop is embedded as a function over an explicit state record, driven
by a finite script of external inputs (results of `cap.read`, keypress
polls, inference outcomes).  One iteration of the Python `while` loop
consumes one script entry; exhausting the script models observing a finite
prefix of a run.  Shared flags (`stop_event`, `running`) are plain booleans
in the state, read and written exactly where the Python code reads and
writes them.
-/

namespace LiveApp

/-- The log events `log_progress` can emit from the two loops of
`ApplicationHandler`.  Each constructor corresponds to one
`log_progress(step_name=..., status=...)` call site in
`src/scripts/LiveApplication.py`; the free-text `details` strings are not
modelled. -/
inductive LogEvent
  /-- step "capture per frames", status "started" -/
  | captureStarted
  /-- step "capture error", status "error" (read returned ret = False) -/
  | captureError
  /-- step "queue full", status "warning" (queue.Full on put) -/
  | queueFull
  /-- step "capture per frames", status "completed" -/
  | captureCompleted
  /-- step "frame processing", status "started" -/
  | processingStarted
  /-- step "frame processed", status "in progress" -/
  | frameProcessed
  /-- step "queue empty", status "warning" (queue.Empty on get) -/
  | queueEmpty
  /-- step "processing error", status "error" (unexpected exception) -/
  | processingError
  /-- step "frame processing", status "completed" -/
  | processingCompleted
deriving Repr, DecidableEq

/-- A raw frame, abstracted to an identifier. -/
abbrev Frame := Nat

/-- External inputs consumed by one iteration of the `camera_capture`
loop: the result of `self.cap.read()` (`none` models `ret == False`) and
whether the `cv2.waitKey` poll saw the key q this iteration. -/
structure CamInput where
  read : Option Frame
  quitKey : Bool
deriving Repr, DecidableEq

/-- The state touched by `camera_capture`: the shared `stop_event` flag,
the shared bounded `frame_queue` (head = oldest, dequeued first), the log
sink, and `readCount`, a ghost counter of successful `cap.read` calls.
`LiveApplication.py` assigns no explicit sequence ids; `readCount` records
the ordinal position of each read so that statements about sequence
numbering can be made. -/
structure CamState where
  stop : Bool
  queue : List Frame
  logs : List LogEvent
  readCount : Nat
deriving Repr, DecidableEq

/-- `queue.Queue(maxsize=5)` in `ApplicationHandler.__init__`. -/
def frameQueueMax : Nat := 5

/-- One iteration of the `while` body of `camera_capture`
(`src/scripts/LiveApplication.py` lines 50-69).  Returns the new state and
whether the body executed `break`.  `ret, frame = self.cap.read()`: on
`not ret`, log a capture error and break (the stop event is NOT set).
Otherwise try `frame_queue.put(frame, timeout=1)`: if the queue is full
after the wait, log a queue-full warning and drop the frame.  Then show the
frame and poll for the key q; on q, set the stop event and break. -/
def camBody (s : CamState) (i : CamInput) : CamState × Bool :=
  match i.read with
  | none =>
    ({ s with logs := s.logs ++ [LogEvent.captureError] }, true)
  | some f =>
    let s := { s with readCount := s.readCount + 1 }
    let s :=
      if s.queue.length < frameQueueMax then
        { s with queue := s.queue ++ [f] }
      else
        { s with logs := s.logs ++ [LogEvent.queueFull] }
    if i.quitKey then
      ({ s with stop := true }, true)
    else
      (s, false)

/-- The `while not self.stop_event.is_set()` loop of `camera_capture`,
driven by a finite script of per-iteration inputs.  The stop flag is
checked at the top of every iteration. -/
def camLoop (s : CamState) : List CamInput → CamState
  | [] => s
  | i :: rest =>
    if s.stop then s
    else
      let p := camBody s i
      if p.2 then p.1 else camLoop p.1 rest

/-- `ApplicationHandler.camera_capture`: logs the started event, runs the
capture loop, logs the completed event. -/
def camera_capture (inputs : List CamInput) (s : CamState) : CamState :=
  let s1 := { s with logs := s.logs ++ [LogEvent.captureStarted] }
  let s2 := camLoop s1 inputs
  { s2 with logs := s2.logs ++ [LogEvent.captureCompleted] }

/-- The sequence of states reached by the `camera_capture` loop, one entry
per top-of-loop check (initial state first).  Used to state trace
properties of the shared stop flag. -/
def camStates (s : CamState) : List CamInput → List CamState
  | [] => [s]
  | i :: rest =>
    if s.stop then [s]
    else
      let p := camBody s i
      if p.2 then [s, p.1] else s :: camStates p.1 rest

/-- Number of false-to-true transitions between adjacent entries of a
boolean trace. -/
def risingEdges : List Bool → Nat
  | false :: true :: rest => 1 + risingEdges (true :: rest)
  | _ :: b :: rest => risingEdges (b :: rest)
  | _ => 0

/-- A scalar density value, abstracted to a natural number. -/
abbrev Density := Nat

/-- External input consumed by one dequeue-iteration of `process_frames`:
the outcome of the inference pipeline (`model.predict`,
`density_manager.calculate_density`, `plot_manager.update_Live_pyplot`) on
the dequeued frame.  `some d` models a normal run producing density `d`;
`none` models an unexpected exception from one of these steps. -/
structure ProcInput where
  infer : Option Density
deriving Repr, DecidableEq

/-- The state touched by `process_frames`: the shared stop flag, the
shared frame queue, the log sink, and the list of density values passed to
`plot_manager.update_Live_pyplot`, in call order. -/
structure ProcState where
  stop : Bool
  queue : List Frame
  logs : List LogEvent
  plotted : List Density
deriving Repr, DecidableEq

/-- One iteration of the `while` body of `process_frames`
(`src/scripts/LiveApplication.py` lines 82-114).  Returns the new state
and whether the body executed `break`.  `frame_queue.get(timeout=1)`: on
an empty queue (queue.Empty), log a warning, sleep and continue.  On a
dequeued frame, run the inference steps: on success plot the density and
log the frame as processed; on an unexpected exception log a processing
error and break (the stop event is NOT set, and the loop does not retry
the frame). -/
def procBody (s : ProcState) (i : ProcInput) : ProcState × Bool :=
  match s.queue with
  | [] =>
    ({ s with logs := s.logs ++ [LogEvent.queueEmpty] }, false)
  | _ :: rest =>
    match i.infer with
    | some d =>
      ({ s with queue := rest, plotted := s.plotted ++ [d],
                logs := s.logs ++ [LogEvent.frameProcessed] }, false)
    | none =>
      ({ s with queue := rest,
                logs := s.logs ++ [LogEvent.processingError] }, true)

/-- The `while not self.stop_event.is_set()` loop of `process_frames`,
driven by a finite script of per-iteration inference outcomes.  The stop
flag is checked at the top of every iteration. -/
def procLoop (s : ProcState) : List ProcInput → ProcState
  | [] => s
  | i :: rest =>
    if s.stop then s
    else
      let p := procBody s i
      if p.2 then p.1 else procLoop p.1 rest

/-- `ApplicationHandler.process_frames`: logs the started event, runs the
processing loop, logs the completed event. -/
def process_frames (inputs : List ProcInput) (s : ProcState) : ProcState :=
  let s1 := { s with logs := s.logs ++ [LogEvent.processingStarted] }
  let s2 := procLoop s1 inputs
  { s2 with logs := s2.logs ++ [LogEvent.processingCompleted] }

/-- The resources acquired by `ApplicationHandler.__init__`, in source
order (`src/scripts/LiveApplication.py` lines 15-34). -/
inductive Resource
  | videoCapture
  | yoloTrainer
  | densityManagerRes
  | plotManagerRes
  | frameQueueRes
  | stopEventRes
  | databaseManagerRes
  | emailManagerRes
  | ftpManagerRes
  | htmlManagerRes
deriving Repr, DecidableEq

/-- Outcome of running `ApplicationHandler.__init__`: the resources
acquired before it returned or raised, whether any thread was started
(threads are only created later, in `app_start_running`), and the result —
`Except.error` carries the message of the raised `ValueError`. -/
structure InitResult where
  acquired : List Resource
  threadsStarted : Bool
  result : Except String Unit
deriving Repr

/-- `ApplicationHandler.__init__` given whether
`cv2.VideoCapture(video_source).isOpened()` holds: the capture is created
first; if it did not open, a `ValueError` naming the source is raised
before anything else is constructed; otherwise the remaining collaborators
are constructed in order and the constructor returns normally. -/
def applicationHandlerInit (videoSource : String) (opens : Bool) :
    InitResult :=
  let acquired := [Resource.videoCapture]
  if opens then
    { acquired := acquired ++
        [Resource.yoloTrainer, Resource.densityManagerRes,
         Resource.plotManagerRes, Resource.frameQueueRes,
         Resource.stopEventRes, Resource.databaseManagerRes,
         Resource.emailManagerRes, Resource.ftpManagerRes,
         Resource.htmlManagerRes],
      threadsStarted := false,
      result := Except.ok () }
  else
    { acquired := acquired,
      threadsStarted := false,
      result := Except.error ("Unable to open video source: " ++ videoSource) }

end LiveApp

namespace Streaming

/-- A scalar density value, abstracted to a natural number. -/
abbrev Density := Nat

/-- State of a `ThreadedVideoStreamer`
(`src/densEstAI/core/stream/video_streaming.py`): the `running` flag, the
open/closed status of the capture, `frame_id`, the unbounded `graph_queue`
of density samples (head = oldest), the densities delivered to
`plotter.update_live_density` in call order (`chart`), the frame ids passed
to `tracking_object` in call order, the number of `video_writer.write`
calls, release counters for the capture and the writer, whether
`self.video_writer is not None` (set in `__init__`, never cleared), and
whether the worker thread has been joined. -/
structure StreamerState where
  running : Bool
  capOpen : Bool
  frame_id : Nat
  graph_queue : List Density
  chart : List Density
  trackerCalls : List Nat
  written : Nat
  capReleases : Nat
  writerIsSome : Bool
  writerReleases : Nat
  threadJoined : Bool
deriving Repr, DecidableEq

/-- The state right after `ThreadedVideoStreamer.__init__`: capture opened
by `init_cap`, writer initialised (so `video_writer is not None`),
`frame_id = 0`, `running = False`, empty `graph_queue`. -/
def initStreamer : StreamerState :=
  { running := false, capOpen := true, frame_id := 0, graph_queue := [],
    chart := [], trackerCalls := [], written := 0, capReleases := 0,
    writerIsSome := true, writerReleases := 0, threadJoined := false }

/-- External inputs consumed by one iteration of the worker loop `run`
inside `start_stream`: the result of `self.cap.read()` (`none` models
`ret == False`), the density value the estimator computes for the frame,
and whether `cv2.waitKey` saw the key q this iteration. -/
structure StreamInput where
  read : Option Nat
  density : Density
  quitKey : Bool
deriving Repr, DecidableEq

/-- One iteration of the body of the worker loop `run` in
`ThreadedVideoStreamer.start_stream` (lines 77-91).  Returns the new state
and whether the body executed `break`.  `frame_id` is incremented on every
read, before `ret` is checked; on `not ret` the loop breaks (the `running`
flag is NOT touched).  On a frame: `tracking_object(tracker, results,
frame_id)` is called with the incremented id, the density is enqueued on
`graph_queue`, the annotated frame is written, and on the key q `running`
is set to `False` and the loop breaks. -/
def streamRunBody (s : StreamerState) (i : StreamInput) :
    StreamerState × Bool :=
  let s := { s with frame_id := s.frame_id + 1 }
  match i.read with
  | none => (s, true)
  | some _ =>
    let s := { s with trackerCalls := s.trackerCalls ++ [s.frame_id],
                      graph_queue := s.graph_queue ++ [i.density],
                      written := s.written + 1 }
    if i.quitKey then ({ s with running := false }, true)
    else (s, false)

/-- The `while self.cap.isOpened() and self.running` worker loop of
`start_stream`, driven by a finite script of per-iteration inputs. -/
def streamRunLoop (s : StreamerState) : List StreamInput → StreamerState
  | [] => s
  | i :: rest =>
    if s.capOpen && s.running then
      let p := streamRunBody s i
      if p.2 then p.1 else streamRunLoop p.1 rest
    else s

/-- The worker thread started by `start_stream`, launched after
`start_stream` sets `self.running = True` on the freshly constructed
streamer. -/
def start_stream_worker (inputs : List StreamInput) : StreamerState :=
  streamRunLoop { initStreamer with running := true } inputs

/-- The drain loop of `ThreadedVideoStreamer.process_graph_queue`
(lines 101-106): repeatedly `graph_queue.get_nowait()` then
`plotter.update_live_density(density)`, until `queue.Empty` is raised.
Arguments: densities delivered to the chart so far, current queue contents;
returns (final chart deliveries, final queue contents). -/
def pgqAux (chart : List Density) : List Density → List Density × List Density
  | [] => (chart, [])
  | d :: rest => pgqAux (chart ++ [d]) rest

/-- `ThreadedVideoStreamer.process_graph_queue` as a state transformer. -/
def process_graph_queue (s : StreamerState) : StreamerState :=
  { s with chart := (pgqAux s.chart s.graph_queue).1,
           graph_queue := (pgqAux s.chart s.graph_queue).2 }

/-- The controlling polling loop of `start_stream` (lines 96-98):
`while self.thread.is_alive(): self.process_graph_queue();
time.sleep(0.05)`.  Each entry of `batches` lists the densities the worker
thread enqueues during one sleep interval; when `batches` is exhausted the
worker thread has terminated, `is_alive()` is `False`, and the loop exits
without performing any further drain. -/
def pollLoop (s : StreamerState) : List (List Density) → StreamerState
  | [] => s
  | batch :: rest =>
    let s := process_graph_queue s
    let s := { s with graph_queue := s.graph_queue ++ batch }
    pollLoop s rest

/-- The queue-emptying loop of `stop_stream` (lines 114-118):
`while not self.graph_queue.empty(): self.graph_queue.get_nowait()`.  The
dequeued densities are discarded — `update_live_density` is not called. -/
def drainDiscard : List Density → List Density
  | [] => []
  | _ :: rest => drainDiscard rest

/-- Modelled from the spec: `BaseVideoCap.close_cap`
(`densEstAI/core/utils/video_manager.py`, not present under `src/`)
releases the capture handle owned by the FrameSource wrapper; after the
release the capture no longer reports as opened. -/
def close_cap (s : StreamerState) : StreamerState :=
  { s with capOpen := false, capReleases := s.capReleases + 1 }

/-- Modelled from the spec: `BaseVideoWriter.close_writer`
(`densEstAI/core/utils/video_manager.py`, not present under `src/`)
releases the output-writer handle; it does not clear the
streamer's `video_writer` attribute. -/
def close_writer (s : StreamerState) : StreamerState :=
  { s with writerReleases := s.writerReleases + 1 }

/-- `ThreadedVideoStreamer.stop_stream` (lines 108-123): set
`running = False`; join the worker thread; empty `graph_queue`, discarding
the dequeued samples; then `if self.cap.isOpened(): close_cap()` and
`if self.video_writer is not None: close_writer()`. -/
def stop_stream (s : StreamerState) : StreamerState :=
  let s := { s with running := false }
  let s := { s with threadJoined := true }
  let s := { s with graph_queue := drainDiscard s.graph_queue }
  let s := if s.capOpen then close_cap s else s
  if s.writerIsSome then close_writer s else s

end Streaming

/-! ## Helper lemmas -/

namespace LiveApp

theorem camLoop_of_stop (inputs : List CamInput) (s : CamState)
    (h : s.stop = true) : camLoop s inputs = s := by
  cases inputs with
  | nil => rfl
  | cons i rest => simp [camLoop, h]

theorem procLoop_of_stop (inputs : List ProcInput) (s : ProcState)
    (h : s.stop = true) : procLoop s inputs = s := by
  cases inputs with
  | nil => rfl
  | cons i rest => simp [procLoop, h]

theorem camStates_head (inputs : List CamInput) (s : CamState) :
    (camStates s inputs).head? = some s := by
  cases inputs with
  | nil => rfl
  | cons i rest =>
    by_cases h : s.stop = true
    · simp [camStates, h]
    · rcases hb : (camBody s i).2 with _ | _ <;> simp [camStates, h, hb]

theorem camStates_chain (inputs : List CamInput) :
    ∀ s : CamState,
      List.Chain' (fun a b : CamState => a.stop = true → b.stop = true)
        (camStates s inputs) := by
  induction inputs with
  | nil => intro s; simp [camStates]
  | cons i rest ih =>
    intro s
    cases hs : s.stop with
    | true => simp [camStates, hs]
    | false =>
      cases hb : (camBody s i).2 with
      | true =>
        have hcs : camStates s (i :: rest) = [s, (camBody s i).1] := by
          simp [camStates, hs, hb]
        rw [hcs, List.chain'_cons']
        constructor
        · intro y hy habs
          simp [hs] at habs
        · simp
      | false =>
        have hcs : camStates s (i :: rest) =
            s :: camStates (camBody s i).1 rest := by
          simp [camStates, hs, hb]
        rw [hcs, List.chain'_cons']
        constructor
        · intro y hy habs
          simp [hs] at habs
        · exact ih _

theorem risingEdges_of_true (l : List Bool) :
    List.Chain' (fun a b : Bool => a = true → b = true) (true :: l) →
      risingEdges (true :: l) = 0 := by
  induction l with
  | nil => intro _; rfl
  | cons b rest ih =>
    intro h
    rw [List.chain'_cons] at h
    have hb : b = true := h.1 rfl
    subst hb
    simpa [risingEdges] using ih h.2

theorem risingEdges_le_one (l : List Bool) :
    List.Chain' (fun a b : Bool => a = true → b = true) l →
      risingEdges l ≤ 1 := by
  induction l with
  | nil => intro _; simp [risingEdges]
  | cons a rest ih =>
    intro h
    cases a with
    | true => simp [risingEdges_of_true rest h]
    | false =>
      cases rest with
      | nil => simp [risingEdges]
      | cons b rest2 =>
        rw [List.chain'_cons] at h
        cases b with
        | true =>
          have h0 := risingEdges_of_true rest2 h.2
          simp [risingEdges, h0]
        | false =>
          have := ih h.2
          simpa [risingEdges] using this

end LiveApp

namespace Streaming

theorem pgqAux_spec (q : List Density) :
    ∀ chart : List Density, pgqAux chart q = (chart ++ q, []) := by
  induction q with
  | nil => intro c; simp [pgqAux]
  | cons d rest ih => intro c; simp [pgqAux, ih]

theorem drainDiscard_eq_nil (q : List Density) : drainDiscard q = [] := by
  induction q with
  | nil => rfl
  | cons d rest ih => simpa [drainDiscard] using ih

theorem stop_stream_chart (s : StreamerState) :
    (stop_stream s).chart = s.chart := by
  obtain ⟨r, co, fid, gq, ch, tc, w, cr, ws, wr, tj⟩ := s
  cases co <;> cases ws <;>
    simp [stop_stream, close_cap, close_writer]

theorem stop_stream_queue (s : StreamerState) :
    (stop_stream s).graph_queue = [] := by
  obtain ⟨r, co, fid, gq, ch, tc, w, cr, ws, wr, tj⟩ := s
  cases co <;> cases ws <;>
    simp [stop_stream, close_cap, close_writer, drainDiscard_eq_nil]

theorem streamRunLoop_inv (inputs : List StreamInput) :
    ∀ s : StreamerState,
      List.Pairwise (fun a b : Nat => a < b) s.trackerCalls →
      (∀ x ∈ s.trackerCalls, x ≤ s.frame_id) →
      s.trackerCalls.length = s.written →
      List.Pairwise (fun a b : Nat => a < b)
          (streamRunLoop s inputs).trackerCalls ∧
        (∀ x ∈ (streamRunLoop s inputs).trackerCalls,
            x ≤ (streamRunLoop s inputs).frame_id) ∧
        (streamRunLoop s inputs).trackerCalls.length =
          (streamRunLoop s inputs).written := by
  induction inputs with
  | nil => intro s h1 h2 h3; exact ⟨h1, h2, h3⟩
  | cons i rest ih =>
    intro s h1 h2 h3
    by_cases hrun : (s.capOpen && s.running) = true
    · rcases i with ⟨read, dens, qk⟩
      cases read with
      | none =>
        simp only [streamRunLoop, hrun, if_true, streamRunBody]
        refine ⟨h1, ?_, h3⟩
        intro x hx
        exact Nat.le_succ_of_le (h2 x hx)
      | some fr =>
        have hpair :
            List.Pairwise (fun a b : Nat => a < b)
              (s.trackerCalls ++ [s.frame_id + 1]) := by
          rw [List.pairwise_append]
          refine ⟨h1, List.pairwise_singleton _ _, ?_⟩
          intro x hx y hy
          rcases List.mem_singleton.mp hy with rfl
          exact Nat.lt_succ_of_le (h2 x hx)
        have hbound :
            ∀ x ∈ s.trackerCalls ++ [s.frame_id + 1], x ≤ s.frame_id + 1 := by
          intro x hx
          rcases List.mem_append.mp hx with hx | hx
          · exact Nat.le_succ_of_le (h2 x hx)
          · rcases List.mem_singleton.mp hx with rfl
            exact Nat.le_refl _
        have hlen :
            (s.trackerCalls ++ [s.frame_id + 1]).length = s.written + 1 := by
          simp [h3]
        cases qk with
        | true =>
          simp only [streamRunLoop, hrun, if_true, streamRunBody]
          exact ⟨hpair, hbound, hlen⟩
        | false =>
          simp only [streamRunLoop, hrun, if_true, streamRunBody]
          exact ih _ hpair hbound hlen
    · simp only [streamRunLoop, hrun, if_false]
      exact ⟨h1, h2, h3⟩

end Streaming

/-! ## Claim theorems -/

/-- C1 counterexample: with the stop flag initially clear, a failed read
(`ret == False`) makes `camera_capture` log a capture error and leave the
loop, but the stop flag is still false afterwards — the loop does not set
`stop_event` on this path. -/
theorem C1_read_failure_counterexample :
    ¬ ((LiveApp.camera_capture [{ read := none, quitKey := false }]
        { stop := false, queue := [], logs := [], readCount := 0 }).stop = true) := by
  decide

/-- C1 (amended): when the read from the frame source fails,
`camera_capture` reports a capture error and exits its loop, but it does
not set the stop event: the stop flag, the queue and the read counter are
left unchanged and the remaining iterations are not executed. -/
theorem C1_read_failure_no_stop (s : LiveApp.CamState) (i : LiveApp.CamInput)
    (rest : List LiveApp.CamInput)
    (hstop : s.stop = false) (hread : i.read = none) :
    LiveApp.camera_capture (i :: rest) s =
      { s with logs := s.logs ++
          [LiveApp.LogEvent.captureStarted, LiveApp.LogEvent.captureError,
           LiveApp.LogEvent.captureCompleted] } := by
  simp [LiveApp.camera_capture, LiveApp.camLoop, LiveApp.camBody, hstop, hread]

/-- C1 witness: the amended statement evaluated on a concrete state. -/
theorem C1_read_failure_witness :
    LiveApp.camera_capture [{ read := none, quitKey := true }]
        { stop := false, queue := [2], logs := [], readCount := 3 } =
      { stop := false, queue := [2],
        logs := [LiveApp.LogEvent.captureStarted, LiveApp.LogEvent.captureError,
                 LiveApp.LogEvent.captureCompleted], readCount := 3 } :=
  C1_read_failure_no_stop _ _ _ rfl rfl

/-- C2 counterexample: with the stop flag already set and one frame still
in the queue, `process_frames` terminates immediately and leaves the frame
undequeued — it does not wait for the queue to be observed empty. -/
theorem C2_stop_leaves_queue_counterexample :
    (LiveApp.process_frames [{ infer := some 3 }]
        { stop := true, queue := [0], logs := [], plotted := [] }).queue ≠ [] := by
  decide

/-- C2 (amended): `process_frames` exits as soon as it observes the stop
flag set at the top of an iteration, regardless of the queue contents;
whatever frames are still queued stay queued and nothing further is
plotted. -/
theorem C2_exit_on_stop (inputs : List LiveApp.ProcInput)
    (s : LiveApp.ProcState) (hstop : s.stop = true) :
    (LiveApp.process_frames inputs s).queue = s.queue ∧
      (LiveApp.process_frames inputs s).plotted = s.plotted := by
  have h1 : LiveApp.procLoop
      { s with logs := s.logs ++ [LiveApp.LogEvent.processingStarted] } inputs =
      { s with logs := s.logs ++ [LiveApp.LogEvent.processingStarted] } :=
    LiveApp.procLoop_of_stop _ _ hstop
  simp [LiveApp.process_frames, h1]

/-- C2 witness: the amended statement evaluated on a concrete state. -/
theorem C2_exit_on_stop_witness :
    (LiveApp.process_frames [{ infer := some 7 }]
        { stop := true, queue := [4, 5], logs := [], plotted := [] }).queue = [4, 5] ∧
      (LiveApp.process_frames [{ infer := some 7 }]
        { stop := true, queue := [4, 5], logs := [], plotted := [] }).plotted = [] :=
  C2_exit_on_stop _ _ rfl

/-- C3 counterexample: an unexpected inference failure makes
`process_frames` log a processing error and leave its loop, but the stop
flag is still false afterwards — the loop does not set `stop_event` on
this path. -/
theorem C3_no_stop_after_failure_counterexample :
    ¬ ((LiveApp.process_frames [{ infer := none }]
        { stop := false, queue := [0], logs := [], plotted := [] }).stop = true) := by
  decide

/-- C3 (amended): on an unexpected inference failure `process_frames`
dequeues the frame, reports exactly one processing-error event, and stops
its loop — the failed frame is not retried and the remaining script is not
executed — but it does not set the stop event and plots nothing for the
failed frame. -/
theorem C3_inference_failure (s : LiveApp.ProcState) (f : LiveApp.Frame)
    (q : List LiveApp.Frame) (rest : List LiveApp.ProcInput)
    (hstop : s.stop = false) (hq : s.queue = f :: q) :
    LiveApp.process_frames ({ infer := none } :: rest) s =
      { s with queue := q,
               logs := s.logs ++
                 [LiveApp.LogEvent.processingStarted,
                  LiveApp.LogEvent.processingError,
                  LiveApp.LogEvent.processingCompleted] } := by
  simp [LiveApp.process_frames, LiveApp.procLoop, LiveApp.procBody, hstop, hq]

/-- C3 witness: the amended statement evaluated on a concrete state. -/
theorem C3_inference_failure_witness :
    LiveApp.process_frames [{ infer := none }]
        { stop := false, queue := [0, 1], logs := [], plotted := [] } =
      { stop := false, queue := [1],
        logs := [LiveApp.LogEvent.processingStarted, LiveApp.LogEvent.processingError,
                 LiveApp.LogEvent.processingCompleted], plotted := [] } :=
  C3_inference_failure _ 0 [1] [] rfl rfl

/-- C4: when `camera_capture` reads a frame while the bounded queue is
full, the frame is dropped (the queue and its contents are unchanged in
the continuation state), a queue-full warning is logged, the loop goes on
to the next iteration, and the read counter advances exactly as on a
successful enqueue, so the sequence position of later frames is
unaffected. -/
theorem C4_drop_on_full (s : LiveApp.CamState) (i : LiveApp.CamInput)
    (f : LiveApp.Frame) (rest : List LiveApp.CamInput)
    (hstop : s.stop = false) (hread : i.read = some f)
    (hfull : LiveApp.frameQueueMax ≤ s.queue.length) (hqk : i.quitKey = false) :
    LiveApp.camLoop s (i :: rest) =
      LiveApp.camLoop
        { s with readCount := s.readCount + 1,
                 logs := s.logs ++ [LiveApp.LogEvent.queueFull] } rest := by
  have hnlt : ¬ (s.queue.length < LiveApp.frameQueueMax) := Nat.not_lt.mpr hfull
  simp [LiveApp.camLoop, LiveApp.camBody, hstop, hread, hqk, hnlt]

/-- C4 witness: the statement evaluated on a concrete full queue. -/
theorem C4_drop_on_full_witness :
    LiveApp.camLoop
        { stop := false, queue := [0, 1, 2, 3, 4], logs := [], readCount := 0 }
        [{ read := some 7, quitKey := false }] =
      { stop := false, queue := [0, 1, 2, 3, 4],
        logs := [LiveApp.LogEvent.queueFull], readCount := 1 } :=
  C4_drop_on_full _ _ 7 _ rfl rfl (by decide) rfl

/-- C5: along any `camera_capture` run, adjacent states of the loop trace
never clear the stop flag (once true it stays true), the boolean trace of
the flag has at most one false-to-true transition, and if the flag is true
then the run enqueues nothing: the queue is returned unchanged. -/
theorem C5_stop_monotone (s : LiveApp.CamState) (inputs : List LiveApp.CamInput) :
    List.Chain' (fun a b : LiveApp.CamState => a.stop = true → b.stop = true)
        (LiveApp.camStates s inputs) ∧
      LiveApp.risingEdges
          ((LiveApp.camStates s inputs).map (fun a => a.stop)) ≤ 1 ∧
      (s.stop = true → (LiveApp.camera_capture inputs s).queue = s.queue) := by
  refine ⟨LiveApp.camStates_chain inputs s, ?_, ?_⟩
  · apply LiveApp.risingEdges_le_one
    rw [List.chain'_map]
    exact LiveApp.camStates_chain inputs s
  · intro h
    have h1 := LiveApp.camLoop_of_stop inputs
      { s with logs := s.logs ++ [LiveApp.LogEvent.captureStarted] } h
    simp [LiveApp.camera_capture, h1]

/-- C5 witness: the statement evaluated on a concrete stopped state. -/
theorem C5_stop_monotone_witness :
    (LiveApp.camera_capture [{ read := some 1, quitKey := false }]
        { stop := true, queue := [5], logs := [], readCount := 0 }).queue = [5] :=
  (C5_stop_monotone { stop := true, queue := [5], logs := [], readCount := 0 }
      [{ read := some 1, quitKey := false }]).2.2 rfl

/-- C6 counterexample: a density sample (7) is enqueued by the worker just
before the worker thread terminates; the polling loop of `start_stream`
exits without draining it, and `stop_stream` then removes it from the
queue without delivering it to the chart, whose call list stays empty. -/
theorem C6_lost_sample_counterexample :
    (Streaming.pollLoop { Streaming.initStreamer with running := true }
        [[7]]).graph_queue = [7] ∧
      (Streaming.stop_stream (Streaming.pollLoop
        { Streaming.initStreamer with running := true } [[7]])).chart = [] ∧
      (Streaming.stop_stream (Streaming.pollLoop
        { Streaming.initStreamer with running := true } [[7]])).graph_queue = [] := by
  decide

/-- C6 (amended): after the worker thread has terminated and been joined,
`stop_stream` empties the metric queue but discards the removed samples:
the list of densities delivered to the chart is left exactly as it was,
and the polling loop performs no further drain once it observes
termination. -/
theorem C6_final_drain_discards (s : Streaming.StreamerState) :
    (Streaming.stop_stream s).graph_queue = [] ∧
      (Streaming.stop_stream s).chart = s.chart :=
  ⟨Streaming.stop_stream_queue s, Streaming.stop_stream_chart s⟩

/-- C7 counterexample: calling `stop_stream` twice on a freshly
constructed streamer releases the capture handle once, but invokes the
output-writer release twice — the `video_writer is not None` guard never
becomes false. -/
theorem C7_double_release_counterexample :
    (Streaming.stop_stream (Streaming.stop_stream
        Streaming.initStreamer)).writerReleases = 2 ∧
      (Streaming.stop_stream (Streaming.stop_stream
        Streaming.initStreamer)).capReleases = 1 := by
  decide

/-- C7 (amended): starting from a state with the capture open, the writer
present and no releases performed, calling `stop_stream` twice releases
the capture exactly once (the isOpened guard fails on the second call) but
releases the output writer on both calls, for a total of two writer
releases. -/
theorem C7_stop_twice (s : Streaming.StreamerState)
    (hcap : s.capOpen = true) (hws : s.writerIsSome = true)
    (hc : s.capReleases = 0) (hw : s.writerReleases = 0) :
    (Streaming.stop_stream (Streaming.stop_stream s)).capReleases = 1 ∧
      (Streaming.stop_stream (Streaming.stop_stream s)).writerReleases = 2 := by
  obtain ⟨r, co, fid, gq, ch, tc, w, cr, ws, wr, tj⟩ := s
  dsimp only at hcap hws hc hw
  subst hcap hws hc hw
  simp [Streaming.stop_stream, Streaming.close_cap, Streaming.close_writer,
        Streaming.drainDiscard_eq_nil]

/-- C7 witness: the amended statement evaluated on a concrete state. -/
theorem C7_stop_twice_witness :
    (Streaming.stop_stream (Streaming.stop_stream
        { Streaming.initStreamer with graph_queue := [3] })).capReleases = 1 ∧
      (Streaming.stop_stream (Streaming.stop_stream
        { Streaming.initStreamer with graph_queue := [3] })).writerReleases = 2 :=
  C7_stop_twice _ rfl rfl rfl rfl

/-- C8: one call of `process_graph_queue` on a queue holding samples
d1, d2, d3 removes them all, stopping at the empty signal, and forwards
them to the chart in FIFO order d1, d2, d3. -/
theorem C8_drain_fifo (d1 d2 d3 : Streaming.Density)
    (s : Streaming.StreamerState) (h : s.graph_queue = [d1, d2, d3]) :
    (Streaming.process_graph_queue s).chart = s.chart ++ [d1, d2, d3] ∧
      (Streaming.process_graph_queue s).graph_queue = [] := by
  simp [Streaming.process_graph_queue, h, Streaming.pgqAux_spec]

/-- C8 witness: the statement evaluated on a concrete queue. -/
theorem C8_drain_fifo_witness :
    (Streaming.process_graph_queue
        { Streaming.initStreamer with graph_queue := [1, 2, 3],
                                      chart := [9] }).chart = [9, 1, 2, 3] ∧
      (Streaming.process_graph_queue
        { Streaming.initStreamer with graph_queue := [1, 2, 3],
                                      chart := [9] }).graph_queue = [] :=
  C8_drain_fifo 1 2 3 _ rfl

/-- C9: over any run of the worker loop started by `start_stream`, the
frame ids passed to the tracker are pairwise strictly increasing, and the
tracker is invoked exactly once per processed frame (one call per frame
written to the output). -/
theorem C9_tracker_strictly_increasing (inputs : List Streaming.StreamInput) :
    List.Pairwise (fun a b : Nat => a < b)
        (Streaming.start_stream_worker inputs).trackerCalls ∧
      (Streaming.start_stream_worker inputs).trackerCalls.length =
        (Streaming.start_stream_worker inputs).written := by
  have h := Streaming.streamRunLoop_inv inputs
    { Streaming.initStreamer with running := true }
    (by simp [Streaming.initStreamer]) (by simp [Streaming.initStreamer])
    (by simp [Streaming.initStreamer])
  exact ⟨h.1, h.2.2⟩

/-- C10: constructing the application handler on a source that cannot be
opened raises a ValueError naming the source, with only the capture
itself created — no other collaborator constructed and no thread started;
on a source that opens, construction completes without raising. -/
theorem C10_init_source_check (source : String) :
    (LiveApp.applicationHandlerInit source false).result =
        Except.error ("Unable to open video source: " ++ source) ∧
      (LiveApp.applicationHandlerInit source false).acquired =
        [LiveApp.Resource.videoCapture] ∧
      (LiveApp.applicationHandlerInit source false).threadsStarted = false ∧
      (LiveApp.applicationHandlerInit source true).result = Except.ok () :=
  ⟨rfl, rfl, rfl, rfl⟩
